import Mathlib

/-!
# Verification of the F5-TTS HTTP API wrapper

A shallow embedding of `src/f5_tts/api_server.py` and
`src/f5_tts/api_client.py`.  The external collaborators (the `F5TTS`
model object, `json.loads`, `soundfile.write`, `tempfile.mkdtemp`,
`uuid.uuid4`, the HTTP transport) are passed in as parameters/oracles;
everything the repository itself does — request validation, the pydantic
field bounds of `TTSRequest`, temporary-file bookkeeping, response
construction — is embedded as executable Lean definitions.  Handlers
return, alongside their HTTP response, the ordered list of side effects
they performed, so that claims about "calls infer exactly once" or "the
temporary directory is removed" become statements about that trace.
Python floats are modelled as exact rationals and Python `str(x)` on a
number as `toString` of that rational/integer.
-/

namespace F5TTSApi

/-- An uploaded multipart file as FastAPI hands it to a handler.
`content_type = ""` models a missing content type (`None`), matching the
truthiness test `not ref_audio.content_type` in the source; likewise for
`filename`. -/
structure UploadFile where
  content_type : String
  filename : String
  content : List Nat
deriving DecidableEq

/-- A JSON value, the possible results of `json.loads` on the
`request_data` form field. -/
inductive JsonVal where
  | jnull : JsonVal
  | jbool : Bool → JsonVal
  | jint : Int → JsonVal
  | jnum : ℚ → JsonVal
  | jstr : String → JsonVal
  | jobj : List (String × JsonVal) → JsonVal

/-- The parsed `TTSRequest` pydantic model (api_server.py lines 26-37). -/
structure TTSRequest where
  ref_text : String
  gen_text : String
  target_rms : ℚ
  cross_fade_duration : ℚ
  speed : ℚ
  nfe_step : Int
  cfg_strength : ℚ
  sway_sampling_coef : ℚ
  remove_silence : Bool
  seed : Option Int
deriving DecidableEq

/-- Extract a required `str` field (pydantic `Field(...)` with no default). -/
def getStrField (d : List (String × JsonVal)) (k : String) : Except String String :=
  match List.lookup k d with
  | some (.jstr s) => .ok s
  | some _ => .error (k ++ ": str type expected")
  | none => .error (k ++ ": field required")

/-- A JSON number as a rational (pydantic `float` accepts ints and floats). -/
def asNum : JsonVal → Option ℚ
  | .jint n => some (n : ℚ)
  | .jnum q => some q
  | _ => none

/-- Check optional `ge`/`le` bounds of a pydantic `Field`. -/
def withinBound (lo hi : Option ℚ) (q : ℚ) : Bool :=
  lo.all (fun l => decide (l ≤ q)) && hi.all (fun h => decide (q ≤ h))

/-- Extract a `float` field with a default and optional `ge`/`le` bounds. -/
def getNumField (d : List (String × JsonVal)) (k : String) (dflt : ℚ)
    (lo hi : Option ℚ) : Except String ℚ :=
  match List.lookup k d with
  | none => .ok dflt
  | some v =>
    match asNum v with
    | none => .error (k ++ ": number expected")
    | some q => if withinBound lo hi q then .ok q else .error (k ++ ": out of bounds")

/-- Check optional integer `ge`/`le` bounds. -/
def withinIntBound (lo hi : Option Int) (n : Int) : Bool :=
  lo.all (fun l => decide (l ≤ n)) && hi.all (fun h => decide (n ≤ h))

/-- Extract an `int` field with a default and optional `ge`/`le` bounds. -/
def getIntField (d : List (String × JsonVal)) (k : String) (dflt : Int)
    (lo hi : Option Int) : Except String Int :=
  match List.lookup k d with
  | none => .ok dflt
  | some (.jint n) =>
    if withinIntBound lo hi n then .ok n else .error (k ++ ": out of bounds")
  | some _ => .error (k ++ ": int type expected")

/-- Extract a `bool` field with a default. -/
def getBoolField (d : List (String × JsonVal)) (k : String) (dflt : Bool) :
    Except String Bool :=
  match List.lookup k d with
  | none => .ok dflt
  | some (.jbool b) => .ok b
  | some _ => .error (k ++ ": bool type expected")

/-- Extract an `Optional[int]` field defaulting to `None`. -/
def getOptIntField (d : List (String × JsonVal)) (k : String) :
    Except String (Option Int) :=
  match List.lookup k d with
  | none => .ok none
  | some .jnull => .ok none
  | some (.jint n) => .ok (some n)
  | some _ => .error (k ++ ": int type expected")

/-- `TTSRequest(**request_dict)`: pydantic validation of the parsed JSON
against the field declarations of api_server.py lines 26-37.  A non-object
argument raises (`TypeError`), which like a `ValidationError` falls through
to the generic `except Exception` handler. -/
def validateTTSRequest : JsonVal → Except String TTSRequest
  | .jobj d => do
    let ref_text ← getStrField d "ref_text"
    let gen_text ← getStrField d "gen_text"
    let target_rms ← getNumField d "target_rms" (mkRat 1 10) (some 0) (some 1)
    let cross_fade_duration ← getNumField d "cross_fade_duration" (mkRat 15 100) (some 0) none
    let speed ← getNumField d "speed" 1 (some (mkRat 1 10)) (some 3)
    let nfe_step ← getIntField d "nfe_step" 32 (some 1) (some 128)
    let cfg_strength ← getNumField d "cfg_strength" 2 (some 0) (some 10)
    let sway_sampling_coef ← getNumField d "sway_sampling_coef" (-1) none none
    let remove_silence ← getBoolField d "remove_silence" false
    let seed ← getOptIntField d "seed"
    pure { ref_text := ref_text, gen_text := gen_text, target_rms := target_rms,
           cross_fade_duration := cross_fade_duration, speed := speed,
           nfe_step := nfe_step, cfg_strength := cfg_strength,
           sway_sampling_coef := sway_sampling_coef,
           remove_silence := remove_silence, seed := seed }
  | _ => .error "argument of type TTSRequest must be a mapping"

/-- Python `str.startswith`, computed on the character list. -/
def strStartsWith (s p : String) : Bool := p.data.isPrefixOf s.data

/-- Python `str.endswith`, computed on the character list. -/
def strEndsWith (s p : String) : Bool := p.data.isSuffixOf s.data

/-- Python `str.lower`, computed on the character list. -/
def strToLower (s : String) : String := ⟨s.data.map Char.toLower⟩

/-- The accepted audio filename extensions (api_server.py line 191). -/
def audioExtensions : List String := [".wav", ".mp3", ".flac", ".m4a", ".ogg"]

/-- `is_audio_content_type` from api_server.py lines 184-188. -/
def is_audio_content_type (f : UploadFile) : Bool :=
  f.content_type == "" || strStartsWith f.content_type "audio/" ||
    f.content_type == "application/octet-stream"

/-- `is_audio_filename` from api_server.py lines 189-192:
`filename.lower().endswith(('.wav', '.mp3', '.flac', '.m4a', '.ogg'))`,
where `endswith` on a tuple succeeds when any member matches. -/
def is_audio_filename (f : UploadFile) : Bool :=
  f.filename == "" ||
    audioExtensions.any (fun e => strEndsWith (strToLower f.filename) e)

/-- The 400 rejection condition at api_server.py line 194:
`not (is_audio_content_type or is_audio_filename)`. -/
def rejectedAsNonAudio (f : UploadFile) : Bool :=
  !(is_audio_content_type f || is_audio_filename f)

/-- The external `F5TTS` model object, as far as the wrapper inspects it:
`device`, `mel_spec_type`, `target_sample_rate` (read by the info endpoints)
and an optional `seed` attribute (`seed = none` models
`hasattr(tts_model, 'seed')` being false). -/
structure F5TTS where
  device : String
  mel_spec_type : String
  target_sample_rate : Nat
  seed : Option Int
deriving DecidableEq

/-- The arguments the handler passes to `tts_model.infer`
(api_server.py lines 208-220). -/
structure InferArgs where
  ref_file : String
  ref_text : String
  gen_text : String
  target_rms : ℚ
  cross_fade_duration : ℚ
  speed : ℚ
  nfe_step : Int
  cfg_strength : ℚ
  sway_sampling_coef : ℚ
  remove_silence : Bool
  seed : Option Int
deriving DecidableEq

/-- Outcome of a `tts_model.infer` call: `(wav, sr, spec)` on success
(the spectrogram is never inspected, so it is dropped), or a raised
exception. -/
inductive InferOutcome where
  | ok : List ℚ → Nat → InferOutcome
  | exn : String → InferOutcome

/-- Outcome of a `tts_model.transcribe` call. -/
inductive TranscribeOutcome where
  | ok : String → TranscribeOutcome
  | exn : String → TranscribeOutcome

/-- Results of the external library calls a request consumes:
`tempfile.mkdtemp`, `uuid.uuid4`, and the `soundfile.write` WAV encoder. -/
structure Externals where
  tempDir : String
  uuidStr : String
  sfWrite : List ℚ → Nat → List Nat

/-- The observable side effects a handler performs, in order. -/
inductive Effect where
  | mkdtemp : String → Effect
  | writeFile : String → List Nat → Effect
  | inferCall : InferArgs → Effect
  | transcribeCall : String → Option String → Effect
  | unlink : String → Effect
  | rmdir : String → Effect
deriving DecidableEq

/-- An HTTP response as produced by one of the handlers. -/
inductive Response where
  | httpError : Nat → String → Response
  | streaming : String → List (String × String) → List Nat → Response
  | transcribeOk : String → Option String → Response
  | healthOk : String → Bool → String → Response
  | modelInfoOk : String → String → String → Nat → Response
  | rootOk : List (String × String) → Response
deriving DecidableEq

/-- `GET /health` (api_server.py lines 121-137). -/
def health_check (tts_model : Option F5TTS) : Response :=
  match tts_model with
  | none => .healthOk "unhealthy" false "unknown"
  | some m => .healthOk "healthy" true m.device

/-- `GET /model/info` (api_server.py lines 140-156). -/
def get_model_info (tts_model : Option F5TTS) : Response :=
  match tts_model with
  | none => .httpError 503 "模型未加载"
  | some m => .modelInfoOk "F5TTS_v1_Base" m.device m.mel_spec_type m.target_sample_rate

/-- `str(x)` on the model seed attribute for the `X-Seed` header
(api_server.py line 245): `str(tts_model.seed)` when the attribute exists,
`"null"` otherwise. -/
def xSeedHeader (m : F5TTS) : String :=
  match m.seed with
  | some s => toString s
  | none => "null"

/-- The path of the temporary reference-audio file the synthesize handler
writes (api_server.py line 202): `f"ref_{uuid.uuid4()}.wav"` joined to the
fresh temporary directory. -/
def refAudioPath (ext : Externals) : String :=
  ext.tempDir ++ "/ref_" ++ ext.uuidStr ++ ".wav"

/-- The arguments of the `tts_model.infer` call, assembled from the parsed
request (api_server.py lines 208-220). -/
def inferArgsOf (ext : Externals) (request : TTSRequest) : InferArgs :=
  { ref_file := refAudioPath ext, ref_text := request.ref_text,
    gen_text := request.gen_text, target_rms := request.target_rms,
    cross_fade_duration := request.cross_fade_duration,
    speed := request.speed, nfe_step := request.nfe_step,
    cfg_strength := request.cfg_strength,
    sway_sampling_coef := request.sway_sampling_coef,
    remove_silence := request.remove_silence, seed := request.seed }

/-- `POST /tts/synthesize` (api_server.py lines 159-266).  `parsed` is the
outcome of `json.loads(request_data)` (a stdlib call, passed in as an
oracle); `inferFn` is the external `tts_model.infer`.  Returns the ordered
effect trace alongside the response. -/
def synthesize_speech (tts_model : Option F5TTS) (ext : Externals)
    (ref_audio : UploadFile) (parsed : Except String JsonVal)
    (inferFn : InferArgs → InferOutcome) : List Effect × Response :=
  match tts_model with
  | none => ([], .httpError 503 "模型未加载")
  | some m =>
    match parsed with
    | .error e => ([], .httpError 400 ("请求参数JSON格式错误: " ++ e))
    | .ok j =>
      match validateTTSRequest j with
      | .error e => ([], .httpError 500 ("TTS合成失败: " ++ e))
      | .ok request =>
        if rejectedAsNonAudio ref_audio then
          ([], .httpError 400 "上传文件必须是音频格式")
        else
          let temp_dir := ext.tempDir
          let ref_audio_path := refAudioPath ext
          let args : InferArgs := inferArgsOf ext request
          let pre : List Effect :=
            [.mkdtemp temp_dir, .writeFile ref_audio_path ref_audio.content,
             .inferCall args]
          match inferFn args with
          | .exn e => (pre, .httpError 500 ("TTS合成失败: " ++ e))
          | .ok wav sr =>
            if sr = 0 then
              (pre, .httpError 500 "TTS合成失败: division by zero")
            else
              let audio_data := ext.sfWrite wav sr
              let duration : ℚ := (wav.length : ℚ) / (sr : ℚ)
              (pre ++ [.unlink ref_audio_path, .rmdir temp_dir],
               .streaming "audio/wav"
                 [("Content-Disposition", "attachment; filename=synthesized_audio.wav"),
                  ("X-Audio-Duration", toString duration),
                  ("X-Sample-Rate", toString sr),
                  ("X-Seed", xSeedHeader m)]
                 audio_data)

/-- The path of the temporary file the transcribe handler writes
(api_server.py line 307): `f"audio_{uuid.uuid4()}.wav"` joined to the
fresh temporary directory. -/
def transcribeAudioPath (ext : Externals) : String :=
  ext.tempDir ++ "/audio_" ++ ext.uuidStr ++ ".wav"

/-- `POST /tts/transcribe` (api_server.py lines 269-336). -/
def transcribe_audio (tts_model : Option F5TTS) (ext : Externals)
    (audio : UploadFile) (language : Option String)
    (transcribeFn : String → Option String → TranscribeOutcome) :
    List Effect × Response :=
  match tts_model with
  | none => ([], .httpError 503 "模型未加载")
  | some _ =>
    if rejectedAsNonAudio audio then
      ([], .httpError 400 "上传文件必须是音频格式")
    else
      let temp_dir := ext.tempDir
      let audio_path := transcribeAudioPath ext
      let pre : List Effect :=
        [.mkdtemp temp_dir, .writeFile audio_path audio.content,
         .transcribeCall audio_path language]
      match transcribeFn audio_path language with
      | .exn e => (pre, .httpError 500 ("音频转录失败: " ++ e))
      | .ok transcribed_text =>
        (pre ++ [.unlink audio_path, .rmdir temp_dir],
         .transcribeOk transcribed_text language)

/-- `GET /` (api_server.py lines 339-353): the endpoint listing in the
root response body. -/
def rootEndpoints : List (String × String) :=
  [("health", "/health"), ("model_info", "/model/info"),
   ("synthesize", "/tts/synthesize"), ("transcribe", "/tts/transcribe")]

/-- The root handler. -/
def root : Response := .rootOk rootEndpoints

/-- An HTTP method. -/
inductive Method where
  | GET : Method
  | POST : Method
deriving DecidableEq

/-- A registered route: method, path, handler name. -/
structure Route where
  method : Method
  path : String
  handlerName : String
deriving DecidableEq

/-- Every route registered on the FastAPI app by a decorator in
api_server.py, in source order (lines 121, 140, 159, 269, 339). -/
def appRoutes : List Route :=
  [⟨.GET, "/health", "health_check"⟩,
   ⟨.GET, "/model/info", "get_model_info"⟩,
   ⟨.POST, "/tts/synthesize", "synthesize_speech"⟩,
   ⟨.POST, "/tts/transcribe", "transcribe_audio"⟩,
   ⟨.GET, "/", "root"⟩]

/-! ## The client library (`api_client.py`) -/

/-- `base_url.rstrip("/")` (api_client.py line 27). -/
def rstripSlash (s : String) : String := s.dropRightWhile (fun c => c == '/')

/-- An HTTP response as the `requests` library presents it. -/
structure HttpResponse where
  statusCode : Nat
  content : List Nat
  headers : List (String × String)

/-- A multipart POST issued by the client: URL, file fields (field name to
local file path), and form fields.  The `request_data` form field carries
the JSON object handed to `json.dumps` (the serializer itself being stdlib
code outside the repository). -/
structure ClientPost where
  url : String
  files : List (String × String)
  data : List (String × JsonVal)

/-- The dict returned by `F5TTSClient.synthesize_speech` on success
(api_client.py lines 109-114). -/
structure SynthResult where
  output_path : String
  duration : Option String
  sample_rate : Option String
  seed : Option String

/-- Everything observable about one run of the client method: the POSTs it
issued, the files it wrote, and its return value or the status code on
which `raise_for_status` raised. -/
structure ClientRun where
  posts : List ClientPost
  writes : List (String × List Nat)
  result : Except Nat SynthResult

/-- The `request_data` dict the client builds (api_client.py lines 78-89):
all ten synthesis parameters, in source order. -/
def synth_request_data (p : TTSRequest) : List (String × JsonVal) :=
  [("ref_text", .jstr p.ref_text),
   ("gen_text", .jstr p.gen_text),
   ("target_rms", .jnum p.target_rms),
   ("cross_fade_duration", .jnum p.cross_fade_duration),
   ("speed", .jnum p.speed),
   ("nfe_step", .jint p.nfe_step),
   ("cfg_strength", .jnum p.cfg_strength),
   ("sway_sampling_coef", .jnum p.sway_sampling_coef),
   ("remove_silence", .jbool p.remove_silence),
   ("seed", match p.seed with | some n => .jint n | none => .jnull)]

/-- The single POST the client sends (api_client.py lines 92-100). -/
def clientSynthRequest (base_url ref_audio_path : String) (p : TTSRequest) :
    ClientPost :=
  { url := rstripSlash base_url ++ "/tts/synthesize",
    files := [("ref_audio", ref_audio_path)],
    data := [("request_data", .jobj (synth_request_data p))] }

/-- `requests.Response.raise_for_status` raises exactly on 4xx/5xx codes. -/
def raiseForStatus (code : Nat) : Prop := 400 ≤ code ∧ code < 600

instance (code : Nat) : Decidable (raiseForStatus code) :=
  inferInstanceAs (Decidable (_ ∧ _))

/-- `F5TTSClient.synthesize_speech` (api_client.py lines 42-114).  `post`
is the HTTP transport.  The ten parameter fields coincide with the server's
`TTSRequest`, so that structure is reused for them. -/
def F5TTSClient.synthesize_speech (base_url ref_audio_path : String)
    (p : TTSRequest) (output_path : String)
    (post : ClientPost → HttpResponse) : ClientRun :=
  let req := clientSynthRequest base_url ref_audio_path p
  let resp := post req
  if raiseForStatus resp.statusCode then
    { posts := [req], writes := [], result := .error resp.statusCode }
  else
    { posts := [req], writes := [(output_path, resp.content)],
      result := .ok
        { output_path := output_path,
          duration := List.lookup "X-Audio-Duration" resp.headers,
          sample_rate := List.lookup "X-Sample-Rate" resp.headers,
          seed := List.lookup "X-Seed" resp.headers } }

/-! ## Derived notions used by the claims -/

/-- All `tts_model.infer` invocations recorded in an effect trace. -/
def inferCalls (t : List Effect) : List InferArgs :=
  t.filterMap (fun e => match e with | .inferCall a => some a | _ => none)

/-! ## Helper lemmas -/

/-- The trace of a synthesize request that reaches the model call: the
three preparatory effects, then cleanup exactly when `infer` returns with
a nonzero sample rate. -/
theorem synthesize_speech_trace (m : F5TTS) (ext : Externals) (f : UploadFile)
    (j : JsonVal) (req : TTSRequest) (inferFn : InferArgs → InferOutcome)
    (hval : validateTTSRequest j = .ok req)
    (hfmt : rejectedAsNonAudio f = false) :
    (synthesize_speech (some m) ext f (.ok j) inferFn).1 =
      [.mkdtemp ext.tempDir, .writeFile (refAudioPath ext) f.content,
       .inferCall (inferArgsOf ext req)] ++
      (match inferFn (inferArgsOf ext req) with
       | .ok _ sr =>
         if sr = 0 then [] else [.unlink (refAudioPath ext), .rmdir ext.tempDir]
       | .exn _ => []) := by
  simp only [synthesize_speech, hval, hfmt, Bool.false_eq_true, if_false]
  cases hi : inferFn (inferArgsOf ext req) with
  | ok wav sr =>
    by_cases hsr : sr = 0 <;> simp [hi, hsr]
  | exn e => simp [hi]

/-- The trace of a transcribe request that passes the format check. -/
theorem transcribe_audio_trace (m : F5TTS) (ext : Externals) (f : UploadFile)
    (language : Option String)
    (transcribeFn : String → Option String → TranscribeOutcome)
    (hfmt : rejectedAsNonAudio f = false) :
    (transcribe_audio (some m) ext f language transcribeFn).1 =
      [.mkdtemp ext.tempDir, .writeFile (transcribeAudioPath ext) f.content,
       .transcribeCall (transcribeAudioPath ext) language] ++
      (match transcribeFn (transcribeAudioPath ext) language with
       | .ok _ => [.unlink (transcribeAudioPath ext), .rmdir ext.tempDir]
       | .exn _ => []) := by
  simp only [transcribe_audio, hfmt, Bool.false_eq_true, if_false]
  cases ht : transcribeFn (transcribeAudioPath ext) language <;> simp [ht]

/-! ## The claims -/

/-- C3: the server exposes exactly four functional endpoints — GET /health,
GET /model/info, POST /tts/synthesize, POST /tts/transcribe — plus a GET /
root route whose body lists exactly those four; no other routes are
registered. -/
theorem claim_c3_routes :
    appRoutes =
      [⟨.GET, "/health", "health_check"⟩,
       ⟨.GET, "/model/info", "get_model_info"⟩,
       ⟨.POST, "/tts/synthesize", "synthesize_speech"⟩,
       ⟨.POST, "/tts/transcribe", "transcribe_audio"⟩,
       ⟨.GET, "/", "root"⟩] ∧
    appRoutes.Nodup ∧
    root = .rootOk rootEndpoints ∧
    rootEndpoints.map Prod.snd =
      (appRoutes.filter (fun r => r.path ≠ "/")).map Route.path := by
  exact ⟨rfl, by decide, rfl, by decide⟩

/-- C4: with `tts_model = None`, /model/info, /tts/synthesize and
/tts/transcribe each fail with 503 and an empty effect trace (nothing is
read from the upload, no model operation runs), while /health returns
("unhealthy", False, "unknown"); with a loaded model, /health returns
("healthy", True, device). -/
theorem claim_c4_model_gating (m : F5TTS) (ext : Externals) (f : UploadFile)
    (parsed : Except String JsonVal) (inferFn : InferArgs → InferOutcome)
    (language : Option String)
    (transcribeFn : String → Option String → TranscribeOutcome) :
    health_check none = .healthOk "unhealthy" false "unknown" ∧
    get_model_info none = .httpError 503 "模型未加载" ∧
    synthesize_speech none ext f parsed inferFn = ([], .httpError 503 "模型未加载") ∧
    transcribe_audio none ext f language transcribeFn = ([], .httpError 503 "模型未加载") ∧
    health_check (some m) = .healthOk "healthy" true m.device := by
  exact ⟨rfl, rfl, rfl, rfl, rfl⟩

/-- C6: a synthesize request whose `request_data` is not syntactically
valid JSON gets a 400 JSON-format error, with an empty effect trace, so
`tts_model.infer` is never invoked. -/
theorem claim_c6_invalid_json (m : F5TTS) (ext : Externals) (f : UploadFile)
    (e : String) (inferFn : InferArgs → InferOutcome) :
    synthesize_speech (some m) ext f (.error e) inferFn =
      ([], .httpError 400 ("请求参数JSON格式错误: " ++ e)) ∧
    inferCalls (synthesize_speech (some m) ext f (.error e) inferFn).1 = [] := by
  exact ⟨rfl, rfl⟩

/-- C9: a synthesize request whose `request_data` parses as JSON but fails
the `TTSRequest` field validation gets a 500 from the generic exception
handler, never a 400. -/
theorem claim_c9_validation_error_500 (m : F5TTS) (ext : Externals)
    (f : UploadFile) (j : JsonVal) (e : String)
    (inferFn : InferArgs → InferOutcome)
    (hval : validateTTSRequest j = .error e) :
    synthesize_speech (some m) ext f (.ok j) inferFn =
      ([], .httpError 500 ("TTS合成失败: " ++ e)) ∧
    ∀ d, (synthesize_speech (some m) ext f (.ok j) inferFn).2 ≠ .httpError 400 d := by
  have h1 : synthesize_speech (some m) ext f (.ok j) inferFn =
      ([], .httpError 500 ("TTS合成失败: " ++ e)) := by
    simp [synthesize_speech, hval]
  exact ⟨h1, fun d => by rw [h1]; simp⟩

/-- Witness for C9 at a concrete out-of-bounds `speed`. -/
theorem claim_c9_validation_error_500_witness :
    validateTTSRequest
        (.jobj [("ref_text", .jstr "a"), ("gen_text", .jstr "b"),
                ("speed", .jnum 5)]) =
      .error "speed: out of bounds" ∧
    synthesize_speech (some ⟨"cpu", "vocos", 24000, none⟩)
        ⟨"/tmp/d", "u", fun _ _ => []⟩ ⟨"audio/wav", "r.wav", [5]⟩
        (.ok (.jobj [("ref_text", .jstr "a"), ("gen_text", .jstr "b"),
                     ("speed", .jnum 5)]))
        (fun _ => .exn "boom") =
      ([], .httpError 500 ("TTS合成失败: " ++ "speed: out of bounds")) := by
  exact ⟨by rfl,
    (claim_c9_validation_error_500 ⟨"cpu", "vocos", 24000, none⟩
      ⟨"/tmp/d", "u", fun _ _ => []⟩ ⟨"audio/wav", "r.wav", [5]⟩
      (.jobj [("ref_text", .jstr "a"), ("gen_text", .jstr "b"),
              ("speed", .jnum 5)])
      "speed: out of bounds" (fun _ => .exn "boom") (by rfl)).1⟩

/-- C10: the `language` field of a successful transcribe response is
exactly the caller's `language` form parameter, whatever the model's
transcription does. -/
theorem claim_c10_language_echo (m : F5TTS) (ext : Externals)
    (f : UploadFile) (language : Option String)
    (transcribeFn : String → Option String → TranscribeOutcome) (text : String)
    (hfmt : rejectedAsNonAudio f = false)
    (ht : transcribeFn (transcribeAudioPath ext) language = .ok text) :
    (transcribe_audio (some m) ext f language transcribeFn).2 =
      .transcribeOk text language := by
  simp [transcribe_audio, hfmt, ht]

/-- Witness for C10: a concrete request whose transcription succeeds. -/
theorem claim_c10_language_echo_witness :
    rejectedAsNonAudio ⟨"audio/wav", "r.wav", [5]⟩ = false ∧
    (fun (_ : String) (_ : Option String) => TranscribeOutcome.ok "hello")
        (transcribeAudioPath ⟨"/tmp/d", "u", fun _ _ => []⟩) (some "en") =
      .ok "hello" ∧
    (transcribe_audio (some ⟨"cpu", "vocos", 24000, none⟩)
        ⟨"/tmp/d", "u", fun _ _ => []⟩ ⟨"audio/wav", "r.wav", [5]⟩
        (some "en") (fun _ _ => .ok "hello")).2 =
      .transcribeOk "hello" (some "en") := by
  exact ⟨by decide, rfl,
    claim_c10_language_echo ⟨"cpu", "vocos", 24000, none⟩
      ⟨"/tmp/d", "u", fun _ _ => []⟩ ⟨"audio/wav", "r.wav", [5]⟩
      (some "en") (fun _ _ => .ok "hello") "hello" (by decide) rfl⟩

/-- C1: a synthesize request with a parsed, valid `TTSRequest` and an
accepted upload calls `tts_model.infer` exactly once, forwarding
`ref_text`, `gen_text`, `target_rms`, `cross_fade_duration`, `speed`,
`nfe_step`, `cfg_strength`, `sway_sampling_coef`, `remove_silence` and
`seed` unchanged from the parsed request. -/
theorem claim_c1_infer_called_once_unchanged (m : F5TTS) (ext : Externals)
    (f : UploadFile) (j : JsonVal) (req : TTSRequest)
    (inferFn : InferArgs → InferOutcome)
    (hval : validateTTSRequest j = .ok req)
    (hfmt : rejectedAsNonAudio f = false) :
    inferCalls (synthesize_speech (some m) ext f (.ok j) inferFn).1 =
      [inferArgsOf ext req] ∧
    (inferArgsOf ext req).ref_text = req.ref_text ∧
    (inferArgsOf ext req).gen_text = req.gen_text ∧
    (inferArgsOf ext req).target_rms = req.target_rms ∧
    (inferArgsOf ext req).cross_fade_duration = req.cross_fade_duration ∧
    (inferArgsOf ext req).speed = req.speed ∧
    (inferArgsOf ext req).nfe_step = req.nfe_step ∧
    (inferArgsOf ext req).cfg_strength = req.cfg_strength ∧
    (inferArgsOf ext req).sway_sampling_coef = req.sway_sampling_coef ∧
    (inferArgsOf ext req).remove_silence = req.remove_silence ∧
    (inferArgsOf ext req).seed = req.seed := by
  refine ⟨?_, rfl, rfl, rfl, rfl, rfl, rfl, rfl, rfl, rfl, rfl⟩
  rw [synthesize_speech_trace m ext f j req inferFn hval hfmt]
  cases hi : inferFn (inferArgsOf ext req) with
  | ok wav sr => by_cases hsr : sr = 0 <;> simp [inferCalls, hsr]
  | exn e => simp [inferCalls]

/-- Witness for C1: a concrete accepted request; `infer` raising shows the
call is still recorded exactly once. -/
theorem claim_c1_infer_called_once_unchanged_witness :
    validateTTSRequest (.jobj [("ref_text", .jstr "a"), ("gen_text", .jstr "b")]) =
      .ok ⟨"a", "b", mkRat 1 10, mkRat 15 100, 1, 32, 2, -1, false, none⟩ ∧
    rejectedAsNonAudio ⟨"audio/wav", "r.wav", [5]⟩ = false ∧
    inferCalls (synthesize_speech (some ⟨"cpu", "vocos", 24000, none⟩)
        ⟨"/tmp/d", "u", fun _ _ => []⟩ ⟨"audio/wav", "r.wav", [5]⟩
        (.ok (.jobj [("ref_text", .jstr "a"), ("gen_text", .jstr "b")]))
        (fun _ => .exn "boom")).1 =
      [inferArgsOf ⟨"/tmp/d", "u", fun _ _ => []⟩
        ⟨"a", "b", mkRat 1 10, mkRat 15 100, 1, 32, 2, -1, false, none⟩] := by
  exact ⟨by rfl, by decide,
    (claim_c1_infer_called_once_unchanged ⟨"cpu", "vocos", 24000, none⟩
      ⟨"/tmp/d", "u", fun _ _ => []⟩ ⟨"audio/wav", "r.wav", [5]⟩
      (.jobj [("ref_text", .jstr "a"), ("gen_text", .jstr "b")])
      ⟨"a", "b", mkRat 1 10, mkRat 15 100, 1, 32, 2, -1, false, none⟩
      (fun _ => .exn "boom") (by rfl) (by decide)).1⟩

/-- C2: when `infer` returns `(wav, sr, spec)` (with a nonzero sample
rate, as a real model produces), the endpoint streams the WAV-encoded
`wav` with media type audio/wav, X-Audio-Duration `str(len(wav)/sr)`,
X-Sample-Rate `str(sr)`, and X-Seed taken from the model object's `seed`
attribute (`"null"` when absent), never from the request's `seed` field. -/
theorem claim_c2_streaming_response (m : F5TTS) (ext : Externals)
    (f : UploadFile) (j : JsonVal) (req : TTSRequest)
    (inferFn : InferArgs → InferOutcome) (wav : List ℚ) (sr : Nat)
    (hval : validateTTSRequest j = .ok req)
    (hfmt : rejectedAsNonAudio f = false)
    (hinf : inferFn (inferArgsOf ext req) = .ok wav sr)
    (hsr : sr ≠ 0) :
    (synthesize_speech (some m) ext f (.ok j) inferFn).2 =
      .streaming "audio/wav"
        [("Content-Disposition", "attachment; filename=synthesized_audio.wav"),
         ("X-Audio-Duration", toString ((wav.length : ℚ) / (sr : ℚ))),
         ("X-Sample-Rate", toString sr),
         ("X-Seed", xSeedHeader m)]
        (ext.sfWrite wav sr) ∧
    (∀ s, m.seed = some s → xSeedHeader m = toString s) ∧
    (m.seed = none → xSeedHeader m = "null") := by
  refine ⟨?_, fun s hs => by simp [xSeedHeader, hs], fun hn => by simp [xSeedHeader, hn]⟩
  simp [synthesize_speech, hval, hfmt, hinf, hsr]

/-- Witness for C2: a concrete successful inference. -/
theorem claim_c2_streaming_response_witness :
    validateTTSRequest (.jobj [("ref_text", .jstr "a"), ("gen_text", .jstr "b")]) =
      .ok ⟨"a", "b", mkRat 1 10, mkRat 15 100, 1, 32, 2, -1, false, none⟩ ∧
    rejectedAsNonAudio ⟨"audio/wav", "r.wav", [5]⟩ = false ∧
    (2 : Nat) ≠ 0 ∧
    (synthesize_speech (some ⟨"cpu", "vocos", 24000, some 7⟩)
        ⟨"/tmp/d", "u", fun _ _ => [9, 9]⟩ ⟨"audio/wav", "r.wav", [5]⟩
        (.ok (.jobj [("ref_text", .jstr "a"), ("gen_text", .jstr "b")]))
        (fun _ => .ok [1, 0, 1] 2)).2 =
      .streaming "audio/wav"
        [("Content-Disposition", "attachment; filename=synthesized_audio.wav"),
         ("X-Audio-Duration", toString ((([1, 0, 1] : List ℚ).length : ℚ) / ((2 : Nat) : ℚ))),
         ("X-Sample-Rate", toString (2 : Nat)),
         ("X-Seed", xSeedHeader ⟨"cpu", "vocos", 24000, some 7⟩)]
        ((fun (_ : List ℚ) (_ : Nat) => [9, 9]) [1, 0, 1] 2) := by
  exact ⟨by rfl, by decide, by decide,
    (claim_c2_streaming_response ⟨"cpu", "vocos", 24000, some 7⟩
      ⟨"/tmp/d", "u", fun _ _ => [9, 9]⟩ ⟨"audio/wav", "r.wav", [5]⟩
      (.jobj [("ref_text", .jstr "a"), ("gen_text", .jstr "b")])
      ⟨"a", "b", mkRat 1 10, mkRat 15 100, 1, 32, 2, -1, false, none⟩
      (fun _ => .ok [1, 0, 1] 2) [1, 0, 1] 2
      (by rfl) (by decide) rfl (by decide)).1⟩

/-- C5: an upload is rejected with the 400 "must be audio format" error
iff both lenient checks fail — the content type is non-empty, does not
start with "audio/" and is not "application/octet-stream", AND the
filename is non-empty and does not end (case-insensitively) in one of
.wav/.mp3/.flac/.m4a/.ogg; when either check passes, the model call is
reached. -/
theorem claim_c5_audio_format_check (m : F5TTS) (ext : Externals)
    (f : UploadFile) (j : JsonVal) (req : TTSRequest)
    (inferFn : InferArgs → InferOutcome) (language : Option String)
    (transcribeFn : String → Option String → TranscribeOutcome)
    (hval : validateTTSRequest j = .ok req) :
    (rejectedAsNonAudio f = true ↔
      ((f.content_type ≠ "" ∧ strStartsWith f.content_type "audio/" = false ∧
          f.content_type ≠ "application/octet-stream") ∧
        (f.filename ≠ "" ∧
          ∀ e ∈ audioExtensions, strEndsWith (strToLower f.filename) e = false))) ∧
    ((synthesize_speech (some m) ext f (.ok j) inferFn).2 =
        .httpError 400 "上传文件必须是音频格式" ↔ rejectedAsNonAudio f = true) ∧
    ((transcribe_audio (some m) ext f language transcribeFn).2 =
        .httpError 400 "上传文件必须是音频格式" ↔ rejectedAsNonAudio f = true) ∧
    (rejectedAsNonAudio f = false →
      inferCalls (synthesize_speech (some m) ext f (.ok j) inferFn).1 =
        [inferArgsOf ext req] ∧
      Effect.transcribeCall (transcribeAudioPath ext) language ∈
        (transcribe_audio (some m) ext f language transcribeFn).1) := by
  refine ⟨?_, ?_, ?_, ?_⟩
  · simp [rejectedAsNonAudio, is_audio_content_type, is_audio_filename,
          audioExtensions, not_or]
    tauto
  · cases hr : rejectedAsNonAudio f with
    | true => simp [synthesize_speech, hval, hr]
    | false =>
      simp only [Bool.false_eq_true, iff_false]
      simp only [synthesize_speech, hval, hr, Bool.false_eq_true, if_false]
      cases hi : inferFn (inferArgsOf ext req) with
      | ok wav sr => by_cases hsr : sr = 0 <;> simp [hi, hsr]
      | exn e => simp [hi]
  · cases hr : rejectedAsNonAudio f with
    | true => simp [transcribe_audio, hr]
    | false =>
      simp only [Bool.false_eq_true, iff_false]
      simp only [transcribe_audio, hr, Bool.false_eq_true, if_false]
      cases ht : transcribeFn (transcribeAudioPath ext) language <;> simp [ht]
  · intro hr
    constructor
    · rw [synthesize_speech_trace m ext f j req inferFn hval hr]
      cases hi : inferFn (inferArgsOf ext req) with
      | ok wav sr => by_cases hsr : sr = 0 <;> simp [inferCalls, hsr]
      | exn e => simp [inferCalls]
    · rw [transcribe_audio_trace m ext f language transcribeFn hr]
      cases ht : transcribeFn (transcribeAudioPath ext) language <;> simp

/-- Witness for C5: a rejected text upload and an accepted audio upload. -/
theorem claim_c5_audio_format_check_witness :
    validateTTSRequest (.jobj [("ref_text", .jstr "a"), ("gen_text", .jstr "b")]) =
      .ok ⟨"a", "b", mkRat 1 10, mkRat 15 100, 1, 32, 2, -1, false, none⟩ ∧
    ((synthesize_speech (some ⟨"cpu", "vocos", 24000, none⟩)
        ⟨"/tmp/d", "u", fun _ _ => []⟩ ⟨"text/plain", "r.txt", [5]⟩
        (.ok (.jobj [("ref_text", .jstr "a"), ("gen_text", .jstr "b")]))
        (fun _ => .exn "boom")).2 =
      .httpError 400 "上传文件必须是音频格式" ↔
        rejectedAsNonAudio ⟨"text/plain", "r.txt", [5]⟩ = true) ∧
    rejectedAsNonAudio ⟨"text/plain", "r.txt", [5]⟩ = true ∧
    rejectedAsNonAudio ⟨"text/plain", "R.WAV", [5]⟩ = false := by
  refine ⟨by rfl, ?_, by decide, by decide⟩
  exact (claim_c5_audio_format_check ⟨"cpu", "vocos", 24000, none⟩
    ⟨"/tmp/d", "u", fun _ _ => []⟩ ⟨"text/plain", "r.txt", [5]⟩
    (.jobj [("ref_text", .jstr "a"), ("gen_text", .jstr "b")])
    ⟨"a", "b", mkRat 1 10, mkRat 15 100, 1, 32, 2, -1, false, none⟩
    (fun _ => .exn "boom") none (fun _ _ => .ok "t") (by rfl)).2.1

/-- C7, as stated, is false: when `tts_model.infer` raises, the cleanup at
api_server.py lines 234-235 is skipped, so the temporary file and
directory survive the request.  Concretely: a valid request whose
inference raises leaves `mkdtemp` and `writeFile` in the trace with no
matching `unlink`/`rmdir`, and returns a 500. -/
theorem claim_c7_counterexample :
    validateTTSRequest (.jobj [("ref_text", .jstr "a"), ("gen_text", .jstr "b")]) =
      .ok ⟨"a", "b", mkRat 1 10, mkRat 15 100, 1, 32, 2, -1, false, none⟩ ∧
    rejectedAsNonAudio ⟨"audio/wav", "r.wav", [5]⟩ = false ∧
    Effect.mkdtemp "/tmp/d" ∈
      (synthesize_speech (some ⟨"cpu", "vocos", 24000, none⟩)
        ⟨"/tmp/d", "u", fun _ _ => []⟩ ⟨"audio/wav", "r.wav", [5]⟩
        (.ok (.jobj [("ref_text", .jstr "a"), ("gen_text", .jstr "b")]))
        (fun _ => .exn "CUDA out of memory")).1 ∧
    Effect.writeFile "/tmp/d/ref_u.wav" [5] ∈
      (synthesize_speech (some ⟨"cpu", "vocos", 24000, none⟩)
        ⟨"/tmp/d", "u", fun _ _ => []⟩ ⟨"audio/wav", "r.wav", [5]⟩
        (.ok (.jobj [("ref_text", .jstr "a"), ("gen_text", .jstr "b")]))
        (fun _ => .exn "CUDA out of memory")).1 ∧
    Effect.unlink "/tmp/d/ref_u.wav" ∉
      (synthesize_speech (some ⟨"cpu", "vocos", 24000, none⟩)
        ⟨"/tmp/d", "u", fun _ _ => []⟩ ⟨"audio/wav", "r.wav", [5]⟩
        (.ok (.jobj [("ref_text", .jstr "a"), ("gen_text", .jstr "b")]))
        (fun _ => .exn "CUDA out of memory")).1 ∧
    Effect.rmdir "/tmp/d" ∉
      (synthesize_speech (some ⟨"cpu", "vocos", 24000, none⟩)
        ⟨"/tmp/d", "u", fun _ _ => []⟩ ⟨"audio/wav", "r.wav", [5]⟩
        (.ok (.jobj [("ref_text", .jstr "a"), ("gen_text", .jstr "b")]))
        (fun _ => .exn "CUDA out of memory")).1 ∧
    (synthesize_speech (some ⟨"cpu", "vocos", 24000, none⟩)
        ⟨"/tmp/d", "u", fun _ _ => []⟩ ⟨"audio/wav", "r.wav", [5]⟩
        (.ok (.jobj [("ref_text", .jstr "a"), ("gen_text", .jstr "b")]))
        (fun _ => .exn "CUDA out of memory")).2 =
      .httpError 500 "TTS合成失败: CUDA out of memory" := by
  exact ⟨by rfl, by decide, by decide, by decide, by decide, by decide, by rfl⟩

/-- C7 amended: for every synthesize or transcribe request that passes
validation AND whose model call succeeds (for synthesize, `infer`
returning a nonzero sample rate), the upload is written to a UUID-based
file inside the fresh temporary directory and both are deleted before the
response is returned; when the model call raises, the cleanup is skipped
and the file and directory remain. -/
theorem claim_c7_amended_cleanup_on_success (m : F5TTS) (ext : Externals)
    (f : UploadFile) (j : JsonVal) (req : TTSRequest)
    (inferFn : InferArgs → InferOutcome) (wav : List ℚ) (sr : Nat)
    (language : Option String)
    (transcribeFn : String → Option String → TranscribeOutcome) (text : String)
    (hval : validateTTSRequest j = .ok req)
    (hfmt : rejectedAsNonAudio f = false)
    (hinf : inferFn (inferArgsOf ext req) = .ok wav sr) (hsr : sr ≠ 0)
    (ht : transcribeFn (transcribeAudioPath ext) language = .ok text) :
    (synthesize_speech (some m) ext f (.ok j) inferFn).1 =
      [.mkdtemp ext.tempDir, .writeFile (refAudioPath ext) f.content,
       .inferCall (inferArgsOf ext req), .unlink (refAudioPath ext),
       .rmdir ext.tempDir] ∧
    refAudioPath ext = ext.tempDir ++ "/ref_" ++ ext.uuidStr ++ ".wav" ∧
    (transcribe_audio (some m) ext f language transcribeFn).1 =
      [.mkdtemp ext.tempDir, .writeFile (transcribeAudioPath ext) f.content,
       .transcribeCall (transcribeAudioPath ext) language,
       .unlink (transcribeAudioPath ext), .rmdir ext.tempDir] ∧
    transcribeAudioPath ext = ext.tempDir ++ "/audio_" ++ ext.uuidStr ++ ".wav" := by
  refine ⟨?_, rfl, ?_, rfl⟩
  · rw [synthesize_speech_trace m ext f j req inferFn hval hfmt, hinf]
    simp [hsr]
  · rw [transcribe_audio_trace m ext f language transcribeFn hfmt, ht]
    rfl

/-- Witness for the amended C7: a concrete request on both endpoints,
cleaned up in order. -/
theorem claim_c7_amended_cleanup_on_success_witness :
    validateTTSRequest (.jobj [("ref_text", .jstr "a"), ("gen_text", .jstr "b")]) =
      .ok ⟨"a", "b", mkRat 1 10, mkRat 15 100, 1, 32, 2, -1, false, none⟩ ∧
    rejectedAsNonAudio ⟨"audio/wav", "r.wav", [5]⟩ = false ∧
    (2 : Nat) ≠ 0 ∧
    (synthesize_speech (some ⟨"cpu", "vocos", 24000, none⟩)
        ⟨"/tmp/d", "u", fun _ _ => []⟩ ⟨"audio/wav", "r.wav", [5]⟩
        (.ok (.jobj [("ref_text", .jstr "a"), ("gen_text", .jstr "b")]))
        (fun _ => .ok [1] 2)).1 =
      [.mkdtemp "/tmp/d", .writeFile (refAudioPath ⟨"/tmp/d", "u", fun _ _ => []⟩) [5],
       .inferCall (inferArgsOf ⟨"/tmp/d", "u", fun _ _ => []⟩
         ⟨"a", "b", mkRat 1 10, mkRat 15 100, 1, 32, 2, -1, false, none⟩),
       .unlink (refAudioPath ⟨"/tmp/d", "u", fun _ _ => []⟩), .rmdir "/tmp/d"] := by
  refine ⟨by rfl, by decide, by decide, ?_⟩
  exact (claim_c7_amended_cleanup_on_success ⟨"cpu", "vocos", 24000, none⟩
    ⟨"/tmp/d", "u", fun _ _ => []⟩ ⟨"audio/wav", "r.wav", [5]⟩
    (.jobj [("ref_text", .jstr "a"), ("gen_text", .jstr "b")])
    ⟨"a", "b", mkRat 1 10, mkRat 15 100, 1, 32, 2, -1, false, none⟩
    (fun _ => .ok [1] 2) [1] 2 none (fun _ _ => .ok "t") "t"
    (by rfl) (by decide) rfl (by decide) rfl).1

/-- C8: `F5TTSClient.synthesize_speech` issues exactly one POST to
`<base_url>/tts/synthesize` with the reference audio as the `ref_audio`
file field and the ten synthesis parameters JSON-encoded in the
`request_data` form field; on a success status it writes the full body to
`output_path` and returns the X-Audio-Duration / X-Sample-Rate / X-Seed
headers as `duration` / `sample_rate` / `seed`, and on a 4xx/5xx status
it raises without writing. -/
theorem claim_c8_client_single_post (base_url ref_audio_path : String)
    (p : TTSRequest) (output_path : String)
    (post : ClientPost → HttpResponse) :
    (F5TTSClient.synthesize_speech base_url ref_audio_path p output_path post).posts =
      [clientSynthRequest base_url ref_audio_path p] ∧
    (clientSynthRequest base_url ref_audio_path p).url =
      rstripSlash base_url ++ "/tts/synthesize" ∧
    (clientSynthRequest base_url ref_audio_path p).files =
      [("ref_audio", ref_audio_path)] ∧
    (clientSynthRequest base_url ref_audio_path p).data =
      [("request_data", .jobj (synth_request_data p))] ∧
    (synth_request_data p).map Prod.fst =
      ["ref_text", "gen_text", "target_rms", "cross_fade_duration", "speed",
       "nfe_step", "cfg_strength", "sway_sampling_coef", "remove_silence",
       "seed"] ∧
    (if raiseForStatus (post (clientSynthRequest base_url ref_audio_path p)).statusCode then
      (F5TTSClient.synthesize_speech base_url ref_audio_path p output_path post).writes = [] ∧
      (F5TTSClient.synthesize_speech base_url ref_audio_path p output_path post).result =
        .error (post (clientSynthRequest base_url ref_audio_path p)).statusCode
    else
      (F5TTSClient.synthesize_speech base_url ref_audio_path p output_path post).writes =
        [(output_path, (post (clientSynthRequest base_url ref_audio_path p)).content)] ∧
      (F5TTSClient.synthesize_speech base_url ref_audio_path p output_path post).result =
        .ok { output_path := output_path,
              duration := List.lookup "X-Audio-Duration"
                (post (clientSynthRequest base_url ref_audio_path p)).headers,
              sample_rate := List.lookup "X-Sample-Rate"
                (post (clientSynthRequest base_url ref_audio_path p)).headers,
              seed := List.lookup "X-Seed"
                (post (clientSynthRequest base_url ref_audio_path p)).headers }) := by
  refine ⟨?_, rfl, rfl, rfl, rfl, ?_⟩ <;>
    by_cases h : raiseForStatus (post (clientSynthRequest base_url ref_audio_path p)).statusCode <;>
      simp [F5TTSClient.synthesize_speech, h]

end F5TTSApi
